import Mathlib

/-!
Verification of the session/signaling core of the `share-screen` repository.

The Go source is shallowly embedded:
* `time.Time` values become `Nat` timestamps; `time.Now().After(t)` becomes
  `now > t`, with the current time `now` passed explicitly to every operation
  that consults the clock.
* Pointers to payloads (`*WebRTCOffer`, `*WebRTCAnswer`) become `Option`
  values; a `nil` pointer is `none`.
* The `map[string]*entities.Session` of `MemorySessionRepository` becomes an
  association list `List (String × Session)`; a Go map assignment
  `m[k] = v` is `setEntry`, `delete(m, k)` is `eraseEntry`.
* `crypto/rand` token generation is an oracle: the generated token string is
  an explicit argument of `createSession`.
* Defensive copying in the Go code transfers whole values; since the Lean
  embedding is purely functional, a copy is the value itself.
-/

namespace ShareScreen

/-- Embeds `entities.WebRTCOffer` (fields `Type`, `SDP`). -/
structure WebRTCOffer where
  type : String
  sdp : String
deriving Repr, DecidableEq

/-- Embeds `entities.WebRTCAnswer` (fields `Type`, `SDP`). -/
structure WebRTCAnswer where
  type : String
  sdp : String
deriving Repr, DecidableEq

/-- Embeds `entities.SessionStatus` and its four constants. -/
inductive SessionStatus where
  | pending
  | active
  | completed
  | expired
deriving Repr, DecidableEq

/-- Embeds `entities.Session`. -/
structure Session where
  token : String
  offer : Option WebRTCOffer
  answer : Option WebRTCAnswer
  createdAt : Nat
  expiresAt : Nat
  status : SessionStatus
deriving Repr, DecidableEq

/-- Embeds `(*WebRTCOffer).IsValid` restricted to a non-nil receiver:
`o.Type != "" && o.SDP != ""`. -/
def WebRTCOffer.isValid (o : WebRTCOffer) : Bool :=
  o.type ≠ "" && o.sdp ≠ ""

/-- Embeds `(*WebRTCAnswer).IsValid` restricted to a non-nil receiver. -/
def WebRTCAnswer.isValid (a : WebRTCAnswer) : Bool :=
  a.type ≠ "" && a.sdp ≠ ""

/-- The use-case guard `request.Offer == nil || !request.Offer.IsValid()`,
as a validity predicate on the optional payload. -/
def offerValid : Option WebRTCOffer → Bool
  | none => false
  | some o => o.isValid

/-- The use-case guard `request.Answer == nil || !request.Answer.IsValid()`. -/
def answerValid : Option WebRTCAnswer → Bool
  | none => false
  | some a => a.isValid

/-- Embeds `(*Session).IsExpired`: `time.Now().After(s.ExpiresAt)`. -/
def Session.isExpired (s : Session) (now : Nat) : Bool :=
  now > s.expiresAt

/-- Embeds `(*Session).IsActive`. -/
def Session.isActive (s : Session) (now : Nat) : Bool :=
  s.status = SessionStatus.active && !(s.isExpired now)

/-- Embeds `(*Session).CanAcceptOffer`:
`s.Status == SessionStatusPending && !s.IsExpired()`. -/
def Session.canAcceptOffer (s : Session) (now : Nat) : Bool :=
  s.status = SessionStatus.pending && !(s.isExpired now)

/-- Embeds `(*Session).CanAcceptAnswer`:
`s.Offer != nil && s.Answer == nil && !s.IsExpired()`. -/
def Session.canAcceptAnswer (s : Session) (now : Nat) : Bool :=
  s.offer.isSome && s.answer.isNone && !(s.isExpired now)

/-- The token-keyed session map of `MemorySessionRepository`. -/
abbrev Store := List (String × Session)

/-- Go map read `m[t]`. -/
def lookup : Store → String → Option Session
  | [], _ => none
  | (k, v) :: rest, t => if k = t then some v else lookup rest t

/-- Go map assignment `m[t] = s`: replaces the binding if present,
otherwise adds it. -/
def setEntry : Store → String → Session → Store
  | [], t, s => [(t, s)]
  | (k, v) :: rest, t, s =>
      if k = t then (t, s) :: rest else (k, v) :: setEntry rest t s

/-- Go map deletion `delete(m, t)`. -/
def eraseEntry : Store → String → Store
  | [], _ => []
  | (k, v) :: rest, t =>
      if k = t then eraseEntry rest t else (k, v) :: eraseEntry rest t

/-- The repository error `ErrSessionNotFound`. -/
inductive StoreError where
  | notFound
deriving Repr, DecidableEq

/-- Embeds `MemorySessionRepository.CreateSession`.
The token produced by `generateToken` is the oracle argument `tok`;
the session is stored with `m[token] = session` — the source performs
no collision check before the assignment. -/
def createSession (st : Store) (tok : String) (now ttl : Nat) :
    Store × Session :=
  let session : Session :=
    { token := tok, offer := none, answer := none,
      createdAt := now, expiresAt := now + ttl,
      status := SessionStatus.pending }
  (setEntry st tok session, session)

/-- Embeds `MemorySessionRepository.GetSession`: map read, `ErrSessionNotFound`
when absent, defensive copy on success; no expiry check. -/
def getSession (st : Store) (tok : String) : Except StoreError Session :=
  match lookup st tok with
  | none => Except.error StoreError.notFound
  | some s => Except.ok s

/-- Embeds `MemorySessionRepository.UpdateSession`: fails with
`ErrSessionNotFound` when `session.Token` is absent, otherwise stores a copy
under `session.Token`; no expiry check. -/
def updateSession (st : Store) (s : Session) : Except StoreError Store :=
  match lookup st s.token with
  | none => Except.error StoreError.notFound
  | some _ => Except.ok (setEntry st s.token s)

/-- Embeds `MemorySessionRepository.DeleteSession` (idempotent, no error). -/
def deleteSession (st : Store) (tok : String) : Store :=
  eraseEntry st tok

/-- Embeds `MemorySessionRepository.CleanupExpiredSessions`: collects the
tokens of expired sessions, deletes each, returns the count collected. -/
def cleanupExpiredSessions (st : Store) (now : Nat) : Store × Nat :=
  let expiredTokens :=
    (st.filter (fun p => p.2.isExpired now)).map Prod.fst
  (expiredTokens.foldl (fun acc t => eraseEntry acc t) st,
   expiredTokens.length)

/-- Embeds `MemorySessionRepository.GetActiveSessionsCount`. -/
def getActiveSessionsCount (st : Store) (now : Nat) : Nat :=
  (st.filter (fun p => p.2.isActive now)).length

/-- The use-case error values declared in `usecases`.  `cannotAcceptOffer`
is the anonymous `errors.New("session cannot accept offer")`; `repoFailure`
stands for a repository error propagated unchanged by `return err`. -/
inductive UCError where
  | sessionNotFound
  | sessionExpired
  | invalidOffer
  | invalidAnswer
  | offerNotFound
  | answerNotFound
  | answerAlreadyExists
  | sessionNotReady
  | cannotAcceptOffer
  | repoFailure
deriving Repr, DecidableEq

/-- Embeds `SessionUseCase.SubmitOffer`.  Returns the store after the call
and `none` on success, `some e` on failure. -/
def submitOffer (st : Store) (tok : String) (offer : Option WebRTCOffer)
    (now : Nat) : Store × Option UCError :=
  if !(offerValid offer) then (st, some UCError.invalidOffer)
  else
    match getSession st tok with
    | Except.error _ => (st, some UCError.sessionNotFound)
    | Except.ok session =>
      if session.isExpired now then (st, some UCError.sessionExpired)
      else if !(session.canAcceptOffer now) then
        (st, some UCError.cannotAcceptOffer)
      else
        let s := { session with offer := offer,
                                status := SessionStatus.active }
        match updateSession st s with
        | Except.error _ => (st, some UCError.repoFailure)
        | Except.ok st1 => (st1, none)

/-- Embeds `SessionUseCase.GetOffer`. -/
def getOffer (st : Store) (tok : String) (now : Nat) :
    Except UCError WebRTCOffer :=
  match getSession st tok with
  | Except.error _ => Except.error UCError.sessionNotFound
  | Except.ok session =>
    if session.isExpired now then Except.error UCError.sessionExpired
    else
      match session.offer with
      | none => Except.error UCError.offerNotFound
      | some o => Except.ok o

/-- Embeds `SessionUseCase.SubmitAnswer`. -/
def submitAnswer (st : Store) (tok : String) (answer : Option WebRTCAnswer)
    (now : Nat) : Store × Option UCError :=
  if !(answerValid answer) then (st, some UCError.invalidAnswer)
  else
    match getSession st tok with
    | Except.error _ => (st, some UCError.sessionNotFound)
    | Except.ok session =>
      if session.isExpired now then (st, some UCError.sessionExpired)
      else if !(session.canAcceptAnswer now) then
        if session.answer.isSome then (st, some UCError.answerAlreadyExists)
        else (st, some UCError.sessionNotReady)
      else
        let s := { session with answer := answer }
        match updateSession st s with
        | Except.error _ => (st, some UCError.repoFailure)
        | Except.ok st1 => (st1, none)

/-- Embeds `SessionUseCase.GetAnswer`. -/
def getAnswer (st : Store) (tok : String) (now : Nat) :
    Except UCError WebRTCAnswer :=
  match getSession st tok with
  | Except.error _ => Except.error UCError.sessionNotFound
  | Except.ok session =>
    if session.isExpired now then Except.error UCError.sessionExpired
    else
      match session.answer with
      | none => Except.error UCError.answerNotFound
      | some a => Except.ok a

/-! ### Map lemmas -/

theorem lookup_setEntry_self (st : Store) (k : String) (s : Session) :
    lookup (setEntry st k s) k = some s := by
  induction st with
  | nil => simp [setEntry, lookup]
  | cons p rest ih =>
    obtain ⟨k1, v1⟩ := p
    by_cases h : k1 = k
    · simp [setEntry, h, lookup]
    · simp [setEntry, h, lookup, ih]

theorem lookup_setEntry_ne (st : Store) (k t : String) (s : Session)
    (h : t ≠ k) : lookup (setEntry st k s) t = lookup st t := by
  induction st with
  | nil => simp [setEntry, lookup, Ne.symm h]
  | cons p rest ih =>
    obtain ⟨k1, v1⟩ := p
    by_cases hk : k1 = k
    · subst hk
      simp [setEntry, lookup, Ne.symm h]
    · simp [setEntry, hk, lookup, ih]

theorem mem_setEntry (st : Store) (k : String) (s : Session)
    (p : String × Session) (h : p ∈ setEntry st k s) :
    p = (k, s) ∨ p ∈ st := by
  induction st with
  | nil =>
    simp [setEntry] at h
    exact Or.inl h
  | cons q rest ih =>
    obtain ⟨k1, v1⟩ := q
    by_cases hk : k1 = k
    · simp [setEntry, hk] at h
      rcases h with h | h
      · exact Or.inl h
      · exact Or.inr (List.mem_cons_of_mem _ h)
    · simp only [setEntry, if_neg hk, List.mem_cons] at h
      rcases h with h | h
      · exact Or.inr (by simp [h])
      · rcases ih h with h1 | h1
        · exact Or.inl h1
        · exact Or.inr (List.mem_cons_of_mem _ h1)

theorem eraseEntry_eq_filter (st : Store) (t : String) :
    eraseEntry st t = st.filter (fun p => p.1 ≠ t) := by
  induction st with
  | nil => simp [eraseEntry]
  | cons p rest ih =>
    obtain ⟨k1, v1⟩ := p
    by_cases h : k1 = t
    · simp [eraseEntry, h, List.filter, ih]
    · simp [eraseEntry, h, List.filter, ih]

theorem lookup_mem (st : Store) (t : String) (s : Session)
    (h : lookup st t = some s) : (t, s) ∈ st := by
  induction st with
  | nil => simp [lookup] at h
  | cons p rest ih =>
    obtain ⟨k1, v1⟩ := p
    by_cases hk : k1 = t
    · subst hk
      simp [lookup] at h
      simp [h]
    · simp [lookup, hk] at h
      exact List.mem_cons_of_mem _ (ih h)

theorem mem_filter_store (st : Store) (f : String × Session → Bool)
    (p : String × Session) (h : p ∈ st.filter f) : p ∈ st :=
  List.mem_of_mem_filter h

theorem lookup_none_keys (st : Store) (tok : String)
    (h : lookup st tok = none) : ∀ p ∈ st, p.1 ≠ tok := by
  induction st with
  | nil => intro p hp; simp at hp
  | cons q rest ih =>
    obtain ⟨k1, v1⟩ := q
    by_cases hk : k1 = tok
    · simp [lookup, hk] at h
    · simp only [lookup, if_neg hk] at h
      intro p hp
      rcases List.mem_cons.mp hp with h1 | h1
      · simpa [h1] using hk
      · exact ih h p h1

/-! ### C9 -/

/-- C9: payload validation precedes session lookup — for every store, token
and time, `SubmitOffer` with a nil or invalid payload fails with
`InvalidOffer` and `SubmitAnswer` with a nil or invalid payload fails with
`InvalidAnswer`, in both cases leaving the store unchanged. -/
theorem c9_validation_precedes_lookup
    (st : Store) (tok : String) (now : Nat)
    (o : Option WebRTCOffer) (a : Option WebRTCAnswer)
    (ho : offerValid o = false) (ha : answerValid a = false) :
    submitOffer st tok o now = (st, some UCError.invalidOffer) ∧
    submitAnswer st tok a now = (st, some UCError.invalidAnswer) := by
  constructor
  · simp [submitOffer, ho]
  · simp [submitAnswer, ha]

/-- Witness for C9: a nil offer and an answer with empty `type`, against an
empty store with a never-created token. -/
theorem c9_validation_precedes_lookup_witness :
    submitOffer [] "absent" none 0 = ([], some UCError.invalidOffer) ∧
    submitAnswer [] "absent" (some { type := "", sdp := "x" }) 0 =
      ([], some UCError.invalidAnswer) :=
  c9_validation_precedes_lookup [] "absent" 0 none
    (some { type := "", sdp := "x" }) (by decide) (by decide)

/-! ### C3 -/

/-- C3: once a session's `expiresAt` has passed (or the token was never
created or has been swept), all four policy operations fail with
`SessionExpired` or `SessionNotFound` — even though no cleanup has run —
and the store is unchanged. -/
theorem c3_expired_ops_fail
    (st : Store) (tok : String) (now : Nat)
    (o : WebRTCOffer) (a : WebRTCAnswer)
    (ho : o.isValid = true) (ha : a.isValid = true)
    (hexp : Option.all (fun s => s.isExpired now) (lookup st tok) = true) :
    ((submitOffer st tok (some o) now).1 = st ∧
      ((submitOffer st tok (some o) now).2 = some UCError.sessionExpired ∨
       (submitOffer st tok (some o) now).2 = some UCError.sessionNotFound)) ∧
    ((submitAnswer st tok (some a) now).1 = st ∧
      ((submitAnswer st tok (some a) now).2 = some UCError.sessionExpired ∨
       (submitAnswer st tok (some a) now).2 = some UCError.sessionNotFound)) ∧
    (getOffer st tok now = Except.error UCError.sessionExpired ∨
     getOffer st tok now = Except.error UCError.sessionNotFound) ∧
    (getAnswer st tok now = Except.error UCError.sessionExpired ∨
     getAnswer st tok now = Except.error UCError.sessionNotFound) := by
  cases hl : lookup st tok with
  | none =>
    simp [submitOffer, submitAnswer, getOffer, getAnswer, getSession, hl,
      offerValid, answerValid, ho, ha]
  | some s =>
    rw [hl] at hexp
    simp only [Option.all] at hexp
    simp [submitOffer, submitAnswer, getOffer, getAnswer, getSession, hl,
      offerValid, answerValid, ho, ha, hexp]

/-- Witness for C3: a session that expired at time 10, queried at time 20,
before any sweep. -/
theorem c3_expired_ops_fail_witness :
    (let st : Store := [("tk3",
      { token := "tk3", offer := none, answer := none,
        createdAt := 0, expiresAt := 10, status := SessionStatus.pending })]
     ((submitOffer st "tk3" (some { type := "offer", sdp := "v=0" }) 20).1 = st ∧
       ((submitOffer st "tk3" (some { type := "offer", sdp := "v=0" }) 20).2 =
          some UCError.sessionExpired ∨
        (submitOffer st "tk3" (some { type := "offer", sdp := "v=0" }) 20).2 =
          some UCError.sessionNotFound)) ∧
     ((submitAnswer st "tk3" (some { type := "answer", sdp := "v=0" }) 20).1 = st ∧
       ((submitAnswer st "tk3" (some { type := "answer", sdp := "v=0" }) 20).2 =
          some UCError.sessionExpired ∨
        (submitAnswer st "tk3" (some { type := "answer", sdp := "v=0" }) 20).2 =
          some UCError.sessionNotFound)) ∧
     (getOffer st "tk3" 20 = Except.error UCError.sessionExpired ∨
      getOffer st "tk3" 20 = Except.error UCError.sessionNotFound) ∧
     (getAnswer st "tk3" 20 = Except.error UCError.sessionExpired ∨
      getAnswer st "tk3" 20 = Except.error UCError.sessionNotFound)) :=
  c3_expired_ops_fail _ "tk3" 20 _ _ (by decide) (by decide) (by decide)

/-! ### C1 -/

/-- A live (unexpired at time 5) session holding an offer, stored under
token `dup`. -/
def c1_oldSession : Session :=
  { token := "dup", offer := some { type := "offer", sdp := "v=0" },
    answer := none, createdAt := 0, expiresAt := 1000,
    status := SessionStatus.active }

/-- A store with the single live session `c1_oldSession`. -/
def c1_store : Store := [("dup", c1_oldSession)]

/-- Counterexample to C1 as stated: when `generateToken` yields a token
equal to a live session's token, `CreateSession` succeeds and its map
assignment silently replaces the stored live session — no collision is
detected and nothing is treated as a fatal invariant violation.  Here the
old live session (which held an offer) is gone after the call and the
returned token equals the pre-existing live session's token. -/
theorem c1_counterexample :
    c1_oldSession.isExpired 5 = false ∧
    (createSession c1_store "dup" 5 100).2.token = c1_oldSession.token ∧
    lookup (createSession c1_store "dup" 5 100).1 "dup" ≠ some c1_oldSession ∧
    (createSession c1_store "dup" 5 100).1 =
      [("dup", (createSession c1_store "dup" 5 100).2)] := by
  decide

/-- C1 amended: `CreateSession` performs no collision detection — it stores
the new session with a plain map assignment, so a colliding token silently
replaces the stored live session (see the counterexample).  When the
generated token is fresh (absent from the store), the returned session is
stored under it, every other entry is untouched, and the returned token is
distinct from the token key of every live session present before the call. -/
theorem c1_fresh_token_no_collision
    (st : Store) (tok : String) (now ttl : Nat)
    (hfresh : lookup st tok = none) :
    (createSession st tok now ttl).2.token = tok ∧
    lookup (createSession st tok now ttl).1 tok =
      some (createSession st tok now ttl).2 ∧
    (∀ t2, t2 ≠ tok →
      lookup (createSession st tok now ttl).1 t2 = lookup st t2) ∧
    (∀ p ∈ st, p.1 ≠ tok) := by
  refine ⟨rfl, lookup_setEntry_self st tok _, ?_, lookup_none_keys st tok hfresh⟩
  intro t2 h2
  exact lookup_setEntry_ne st tok t2 _ h2

/-- Witness for C1 amended: creating a session with fresh token `b` in a
store holding one session under token `a`. -/
theorem c1_fresh_token_no_collision_witness :
    (createSession c1_store "b" 5 100).2.token = "b" ∧
    lookup (createSession c1_store "b" 5 100).1 "b" =
      some (createSession c1_store "b" 5 100).2 ∧
    (∀ t2, t2 ≠ "b" →
      lookup (createSession c1_store "b" 5 100).1 t2 = lookup c1_store t2) ∧
    (∀ p ∈ c1_store, p.1 ≠ "b") :=
  c1_fresh_token_no_collision c1_store "b" 5 100 (by decide)

/-! ### C2 -/

/-- A session that expired at time 10 (live until then), holding an offer. -/
def c2_expiredSession : Session :=
  { token := "tk2", offer := some { type := "offer", sdp := "v=0" },
    answer := none, createdAt := 0, expiresAt := 10,
    status := SessionStatus.active }

/-- A store still physically holding `c2_expiredSession` (sweep not yet run). -/
def c2_store : Store := [("tk2", c2_expiredSession)]

/-- Counterexample to C2 as stated: at time 20 the stored session is expired
but unswept, yet the store-level `GetSession` succeeds (returns the session,
not `NotFound`) and `UpdateSession` on its token succeeds as well — the
store layer performs no expiry check at all. -/
theorem c2_counterexample :
    c2_expiredSession.isExpired 20 = true ∧
    getSession c2_store "tk2" = Except.ok c2_expiredSession ∧
    updateSession c2_store c2_expiredSession = Except.ok c2_store := by
  exact ⟨by decide, rfl, rfl⟩

/-- C2 amended: the store-level `GetSession` and `UpdateSession` do not
consult `expiresAt` — on an expired-but-unswept token they succeed exactly
as on a live one.  The logical-expiry guarantee holds one layer up: each of
the four use-case operations checks `IsExpired` right after the lookup and
fails with `SessionExpired` on such a token, without mutating the store. -/
theorem c2_expiry_enforced_at_usecase
    (st : Store) (tok : String) (now : Nat) (s : Session)
    (o : WebRTCOffer) (a : WebRTCAnswer)
    (hl : lookup st tok = some s) (htok : s.token = tok)
    (hexp : s.isExpired now = true)
    (ho : o.isValid = true) (ha : a.isValid = true) :
    getSession st tok = Except.ok s ∧
    updateSession st s = Except.ok (setEntry st tok s) ∧
    getOffer st tok now = Except.error UCError.sessionExpired ∧
    getAnswer st tok now = Except.error UCError.sessionExpired ∧
    submitOffer st tok (some o) now = (st, some UCError.sessionExpired) ∧
    submitAnswer st tok (some a) now = (st, some UCError.sessionExpired) := by
  refine ⟨by simp [getSession, hl], by simp [updateSession, htok, hl], ?_, ?_, ?_, ?_⟩
  · simp [getOffer, getSession, hl, hexp]
  · simp [getAnswer, getSession, hl, hexp]
  · simp [submitOffer, offerValid, ho, getSession, hl, hexp]
  · simp [submitAnswer, answerValid, ha, getSession, hl, hexp]

/-- Witness for C2 amended, on the concrete expired-but-unswept store. -/
theorem c2_expiry_enforced_at_usecase_witness :
    getSession c2_store "tk2" = Except.ok c2_expiredSession ∧
    updateSession c2_store c2_expiredSession =
      Except.ok (setEntry c2_store "tk2" c2_expiredSession) ∧
    getOffer c2_store "tk2" 20 = Except.error UCError.sessionExpired ∧
    getAnswer c2_store "tk2" 20 = Except.error UCError.sessionExpired ∧
    submitOffer c2_store "tk2" (some { type := "offer", sdp := "x" }) 20 =
      (c2_store, some UCError.sessionExpired) ∧
    submitAnswer c2_store "tk2" (some { type := "answer", sdp := "y" }) 20 =
      (c2_store, some UCError.sessionExpired) :=
  c2_expiry_enforced_at_usecase c2_store "tk2" 20 c2_expiredSession
    { type := "offer", sdp := "x" } { type := "answer", sdp := "y" }
    (by decide) (by decide) (by decide) (by decide) (by decide)

/-! ### C4 -/

/-- C4: round trip — on a live session still in its freshly-created shape
(`status = Pending`), a successful `SubmitOffer` followed by `GetOffer` on
the same token returns exactly the submitted payload. -/
theorem c4_offer_roundtrip
    (st : Store) (tok : String) (s : Session) (o : WebRTCOffer) (now : Nat)
    (hl : lookup st tok = some s) (htok : s.token = tok)
    (hstatus : s.status = SessionStatus.pending)
    (hlive : s.isExpired now = false)
    (ho : o.isValid = true) :
    (submitOffer st tok (some o) now).2 = none ∧
    getOffer (submitOffer st tok (some o) now).1 tok now = Except.ok o := by
  have hcan : s.canAcceptOffer now = true := by
    simp [Session.canAcceptOffer, hstatus, hlive]
  have hrun : submitOffer st tok (some o) now =
      (setEntry st tok
        { s with offer := some o, status := SessionStatus.active }, none) := by
    simp [submitOffer, offerValid, ho, getSession, hl, hlive, hcan,
      updateSession, htok]
  rw [hrun]
  have hl1 := lookup_setEntry_self st tok
    { s with offer := some o, status := SessionStatus.active }
  have hexp1 : Session.isExpired
      { s with offer := some o, status := SessionStatus.active } now = false := by
    simpa [Session.isExpired] using hlive
  simp [getOffer, getSession, hl1, hexp1]

/-- Witness for C4: a fresh pending session, offer submitted and read back
at time 5 against `expiresAt = 100`. -/
theorem c4_offer_roundtrip_witness :
    (let st : Store := [("tk4",
      { token := "tk4", offer := none, answer := none,
        createdAt := 0, expiresAt := 100, status := SessionStatus.pending })]
     (submitOffer st "tk4" (some { type := "offer", sdp := "v=0 c4" }) 5).2 = none ∧
     getOffer (submitOffer st "tk4"
         (some { type := "offer", sdp := "v=0 c4" }) 5).1 "tk4" 5 =
       Except.ok { type := "offer", sdp := "v=0 c4" }) :=
  c4_offer_roundtrip _ "tk4" _ _ 5 rfl rfl rfl (by decide) (by decide)

/-! ### C6 -/

/-- C6: after a successful `SubmitOffer`, every later `SubmitOffer` on that
token with any valid payload, at any time the session is still live, fails
with the generic "session cannot accept offer" fault, leaves the store
unchanged, and the stored offer is still the first one submitted. -/
theorem c6_second_offer_rejected
    (st : Store) (tok : String) (s : Session) (o o2 : WebRTCOffer)
    (now now2 : Nat)
    (hl : lookup st tok = some s) (htok : s.token = tok)
    (hstatus : s.status = SessionStatus.pending)
    (hlive : s.isExpired now = false)
    (ho : o.isValid = true) (ho2 : o2.isValid = true)
    (hlive2 : now2 ≤ s.expiresAt) :
    (submitOffer st tok (some o) now).2 = none ∧
    submitOffer (submitOffer st tok (some o) now).1 tok (some o2) now2 =
      ((submitOffer st tok (some o) now).1, some UCError.cannotAcceptOffer) ∧
    (lookup (submitOffer st tok (some o) now).1 tok).map Session.offer =
      some (some o) := by
  have hcan : s.canAcceptOffer now = true := by
    simp [Session.canAcceptOffer, hstatus, hlive]
  have hrun : submitOffer st tok (some o) now =
      (setEntry st tok
        { s with offer := some o, status := SessionStatus.active }, none) := by
    simp [submitOffer, offerValid, ho, getSession, hl, hlive, hcan,
      updateSession, htok]
  rw [hrun]
  have hl1 := lookup_setEntry_self st tok
    { s with offer := some o, status := SessionStatus.active }
  have hexp1 : Session.isExpired
      { s with offer := some o, status := SessionStatus.active } now2 = false := by
    simp [Session.isExpired]
    omega
  have hcan1 : Session.canAcceptOffer
      { s with offer := some o, status := SessionStatus.active } now2 = false := by
    simp [Session.canAcceptOffer]
  refine ⟨rfl, ?_, ?_⟩
  · simp [submitOffer, offerValid, ho2, getSession, hl1, hexp1, hcan1]
  · simp [hl1]

/-- Witness for C6: second offer at time 7 on a session live until 100. -/
theorem c6_second_offer_rejected_witness :
    (let st : Store := [("tk6",
      { token := "tk6", offer := none, answer := none,
        createdAt := 0, expiresAt := 100, status := SessionStatus.pending })]
     (submitOffer st "tk6" (some { type := "offer", sdp := "first" }) 5).2 = none ∧
     submitOffer (submitOffer st "tk6"
         (some { type := "offer", sdp := "first" }) 5).1 "tk6"
         (some { type := "offer", sdp := "second" }) 7 =
       ((submitOffer st "tk6" (some { type := "offer", sdp := "first" }) 5).1,
        some UCError.cannotAcceptOffer) ∧
     (lookup (submitOffer st "tk6"
         (some { type := "offer", sdp := "first" }) 5).1 "tk6").map
         Session.offer = some (some { type := "offer", sdp := "first" })) :=
  c6_second_offer_rejected _ "tk6" _ _ _ 5 7 rfl rfl rfl (by decide)
    (by decide) (by decide) (by decide)

/-! ### C7 -/

/-- C7: after a successful `SubmitAnswer`, every later `SubmitAnswer` on
that token with any valid payload, at any time the session is still live,
fails with `AnswerAlreadyExists`, leaves the store unchanged, and the
stored answer is still the first one submitted. -/
theorem c7_second_answer_rejected
    (st : Store) (tok : String) (s : Session) (a a2 : WebRTCAnswer)
    (now now2 : Nat)
    (hl : lookup st tok = some s) (htok : s.token = tok)
    (hoffer : s.offer.isSome = true) (hanswer : s.answer = none)
    (hlive : s.isExpired now = false)
    (ha : a.isValid = true) (ha2 : a2.isValid = true)
    (hlive2 : now2 ≤ s.expiresAt) :
    (submitAnswer st tok (some a) now).2 = none ∧
    submitAnswer (submitAnswer st tok (some a) now).1 tok (some a2) now2 =
      ((submitAnswer st tok (some a) now).1,
       some UCError.answerAlreadyExists) ∧
    (lookup (submitAnswer st tok (some a) now).1 tok).map Session.answer =
      some (some a) := by
  have hcan : s.canAcceptAnswer now = true := by
    simp [Session.canAcceptAnswer, hoffer, hanswer, hlive]
  have hrun : submitAnswer st tok (some a) now =
      (setEntry st tok { s with answer := some a }, none) := by
    simp [submitAnswer, answerValid, ha, getSession, hl, hlive, hcan,
      updateSession, htok]
  rw [hrun]
  have hl1 := lookup_setEntry_self st tok { s with answer := some a }
  have hexp1 : Session.isExpired { s with answer := some a } now2 = false := by
    simp [Session.isExpired]
    omega
  have hcan1 : Session.canAcceptAnswer
      { s with answer := some a } now2 = false := by
    simp [Session.canAcceptAnswer]
  refine ⟨rfl, ?_, ?_⟩
  · simp [submitAnswer, answerValid, ha2, getSession, hl1, hexp1, hcan1]
  · simp [hl1]

/-- Witness for C7: second answer at time 8 on a session live until 100. -/
theorem c7_second_answer_rejected_witness :
    (let st : Store := [("tk7",
      { token := "tk7", offer := some { type := "offer", sdp := "v=0" },
        answer := none, createdAt := 0, expiresAt := 100,
        status := SessionStatus.active })]
     (submitAnswer st "tk7" (some { type := "answer", sdp := "first" }) 5).2 = none ∧
     submitAnswer (submitAnswer st "tk7"
         (some { type := "answer", sdp := "first" }) 5).1 "tk7"
         (some { type := "answer", sdp := "second" }) 8 =
       ((submitAnswer st "tk7" (some { type := "answer", sdp := "first" }) 5).1,
        some UCError.answerAlreadyExists) ∧
     (lookup (submitAnswer st "tk7"
         (some { type := "answer", sdp := "first" }) 5).1 "tk7").map
         Session.answer = some (some { type := "answer", sdp := "first" })) :=
  c7_second_answer_rejected _ "tk7" _ _ _ 5 8 rfl rfl rfl rfl (by decide)
    (by decide) (by decide) (by decide)

/-! ### C10 -/

/-- C10: frame of `SubmitAnswer` — on any successful call, the stored
session keeps its token, offer, createdAt, expiresAt and status (it is not
promoted to `Completed`); only the answer field changes, becoming the
submitted payload; and the entry under every other token is untouched. -/
theorem c10_submit_answer_frame
    (st st1 : Store) (tok : String) (s : Session) (a : WebRTCAnswer)
    (now : Nat)
    (hl : lookup st tok = some s) (htok : s.token = tok)
    (hsucc : submitAnswer st tok (some a) now = (st1, none)) :
    ∃ s1 : Session, lookup st1 tok = some s1 ∧
      s1.token = s.token ∧ s1.offer = s.offer ∧
      s1.createdAt = s.createdAt ∧ s1.expiresAt = s.expiresAt ∧
      s1.status = s.status ∧ s1.answer = some a ∧
      ∀ t2, t2 ≠ tok → lookup st1 t2 = lookup st t2 := by
  by_cases ha : a.isValid = true
  · by_cases hexp : s.isExpired now = true
    · simp [submitAnswer, answerValid, ha, getSession, hl, hexp] at hsucc
    · by_cases hcan : s.canAcceptAnswer now = true
      · have hrun : submitAnswer st tok (some a) now =
            (setEntry st tok { s with answer := some a }, none) := by
          simp [submitAnswer, answerValid, ha, getSession, hl, hexp, hcan,
            updateSession, htok]
        rw [hrun] at hsucc
        have hst : setEntry st tok { s with answer := some a } = st1 :=
          congrArg Prod.fst hsucc
        refine ⟨{ s with answer := some a }, ?_, rfl, rfl, rfl, rfl, rfl,
          rfl, ?_⟩
        · rw [← hst]
          exact lookup_setEntry_self st tok _
        · intro t2 h2
          rw [← hst]
          exact lookup_setEntry_ne st tok t2 _ h2
      · simp only [submitAnswer, answerValid, ha, Bool.not_true,
          getSession, hl, hexp, hcan] at hsucc
        by_cases hans : s.answer.isSome = true <;> simp [hans] at hsucc
  · simp [submitAnswer, answerValid, ha] at hsucc

/-- Witness for C10: successful answer submission on a live active session
holding an offer. -/
theorem c10_submit_answer_frame_witness :
    (let s : Session :=
      { token := "tka", offer := some { type := "offer", sdp := "v=0" },
        answer := none, createdAt := 0, expiresAt := 100,
        status := SessionStatus.active }
     let st : Store :=
      [("tkb", { token := "tkb", offer := none, answer := none,
                 createdAt := 1, expiresAt := 50,
                 status := SessionStatus.pending }), ("tka", s)]
     ∃ s1 : Session,
       lookup (submitAnswer st "tka"
         (some { type := "answer", sdp := "v=0 ans" }) 5).1 "tka" = some s1 ∧
       s1.token = s.token ∧ s1.offer = s.offer ∧
       s1.createdAt = s.createdAt ∧ s1.expiresAt = s.expiresAt ∧
       s1.status = s.status ∧
       s1.answer = some { type := "answer", sdp := "v=0 ans" } ∧
       ∀ t2, t2 ≠ "tka" →
         lookup (submitAnswer st "tka"
           (some { type := "answer", sdp := "v=0 ans" }) 5).1 t2 =
           lookup st t2) := by
  exact c10_submit_answer_frame _ _ "tka" _ _ 5 rfl rfl rfl

/-! ### C8 -/

/-- Folding map deletion over a token list filters out exactly the entries
whose key is in the list. -/
theorem foldl_eraseEntry (ts : List String) (st : Store) :
    ts.foldl (fun acc t => eraseEntry acc t) st =
      st.filter (fun p => decide (p.1 ∉ ts)) := by
  induction ts generalizing st with
  | nil => simp
  | cons t rest ih =>
    simp only [List.foldl_cons]
    rw [ih, eraseEntry_eq_filter, List.filter_filter]
    apply List.filter_congr
    intro p hp
    simp [List.mem_cons, not_or, Bool.and_comm]

/-- C8: with distinct token keys (as in any map), `CleanupExpiredSessions`
removes exactly the expired entries, leaves every other entry's stored
state untouched (in order), returns the number removed, and an immediate
second run at the same time removes 0. -/
theorem c8_cleanup_exact (st : Store) (now : Nat)
    (hnodup : (st.map Prod.fst).Nodup) :
    (cleanupExpiredSessions st now).1 =
      st.filter (fun p => !(p.2.isExpired now)) ∧
    (cleanupExpiredSessions st now).2 =
      (st.filter (fun p => p.2.isExpired now)).length ∧
    (cleanupExpiredSessions (cleanupExpiredSessions st now).1 now).2 = 0 := by
  have hInj := List.inj_on_of_nodup_map hnodup
  have h1 : (cleanupExpiredSessions st now).1 =
      st.filter (fun p => !(p.2.isExpired now)) := by
    simp only [cleanupExpiredSessions]
    rw [foldl_eraseEntry]
    apply List.filter_congr
    intro p hp
    by_cases hexp : p.2.isExpired now = true
    · have hmem : p.1 ∈ (st.filter (fun q => q.2.isExpired now)).map
          Prod.fst :=
        List.mem_map_of_mem _
          (List.mem_filter.mpr ⟨hp, by simpa using hexp⟩)
      simp [hmem, hexp]
    · have hmem : p.1 ∉ (st.filter (fun q => q.2.isExpired now)).map
          Prod.fst := by
        intro hmem
        obtain ⟨q, hq, hq1⟩ := List.mem_map.mp hmem
        obtain ⟨hqst, hqexp⟩ := List.mem_filter.mp hq
        have heq : q = p := hInj hqst hp hq1
        rw [heq] at hqexp
        exact hexp (by simpa using hqexp)
      simp [hmem, hexp]
  have h2 : (cleanupExpiredSessions st now).2 =
      (st.filter (fun p => p.2.isExpired now)).length := by
    simp [cleanupExpiredSessions]
  have h3 : (cleanupExpiredSessions
      (st.filter (fun p => !(p.2.isExpired now))) now).2 = 0 := by
    simp [cleanupExpiredSessions, List.filter_filter, Bool.and_not_self]
  exact ⟨h1, h2, by rw [h1]; exact h3⟩

/-- Witness for C8: a two-entry store (one expired at time 20, one live);
the expired entry is removed, the live one kept, count 1, second run 0. -/
theorem c8_cleanup_exact_witness :
    (let st : Store :=
      [("tk8a", { token := "tk8a", offer := none, answer := none,
                  createdAt := 0, expiresAt := 10,
                  status := SessionStatus.pending }),
       ("tk8b", { token := "tk8b", offer := none, answer := none,
                  createdAt := 0, expiresAt := 100,
                  status := SessionStatus.pending })]
     (cleanupExpiredSessions st 20).1 =
       st.filter (fun p => !(p.2.isExpired 20)) ∧
     (cleanupExpiredSessions st 20).2 =
       (st.filter (fun p => p.2.isExpired 20)).length ∧
     (cleanupExpiredSessions (cleanupExpiredSessions st 20).1 20).2 = 0) :=
  c8_cleanup_exact _ 20 (by decide)

/-! ### C5 -/

/-- Invariant: every stored session holding an answer also holds an offer. -/
def AnswerAfterOffer (st : Store) : Prop :=
  ∀ p : String × Session, p ∈ st → p.2.answer.isSome = true →
    p.2.offer.isSome = true

/-- One store transition of the system: the store is mutated only by
session creation, the two submit operations, the periodic sweep, and
deletion (`GetOffer`/`GetAnswer` never write). -/
inductive Step : Store → Store → Prop where
  | create (st : Store) (tok : String) (now ttl : Nat) :
      Step st (createSession st tok now ttl).1
  | offer (st : Store) (tok : String) (o : Option WebRTCOffer) (now : Nat) :
      Step st (submitOffer st tok o now).1
  | answer (st : Store) (tok : String) (a : Option WebRTCAnswer)
      (now : Nat) : Step st (submitAnswer st tok a now).1
  | sweep (st : Store) (now : Nat) :
      Step st (cleanupExpiredSessions st now).1
  | remove (st : Store) (tok : String) :
      Step st (deleteSession st tok)

/-- Stores reachable from the empty map through the system's operations. -/
inductive Reachable : Store → Prop where
  | init : Reachable []
  | step (st st1 : Store) : Reachable st → Step st st1 → Reachable st1

/-- `SubmitOffer` either leaves the store unchanged or replaces the fetched
session with one holding the submitted offer and `Active` status. -/
theorem submitOffer_store_cases (st : Store) (tok : String)
    (o : Option WebRTCOffer) (now : Nat) :
    (submitOffer st tok o now).1 = st ∨
    ∃ sess o1, lookup st tok = some sess ∧ o = some o1 ∧
      (submitOffer st tok o now).1 =
        setEntry st sess.token
          { sess with offer := some o1, status := SessionStatus.active } := by
  by_cases hv : offerValid o = true
  · cases hl : lookup st tok with
    | none => left; simp [submitOffer, getSession, hl, hv]
    | some sess =>
      by_cases hexp : sess.isExpired now = true
      · left; simp [submitOffer, getSession, hl, hv, hexp]
      · by_cases hcan : sess.canAcceptOffer now = true
        · cases o with
          | none => simp [offerValid] at hv
          | some o1 =>
            cases hul : lookup st sess.token with
            | none =>
              left
              simp [submitOffer, getSession, hl, hv, hexp, hcan,
                updateSession, hul]
            | some w =>
              right
              exact ⟨sess, o1, rfl, rfl, by
                simp [submitOffer, getSession, hl, hv, hexp, hcan,
                  updateSession, hul]⟩
        · left; simp [submitOffer, getSession, hl, hv, hexp, hcan]
  · left; simp [submitOffer, hv]

/-- `SubmitAnswer` either leaves the store unchanged or replaces the
fetched session — which must already hold an offer — with one holding the
submitted answer. -/
theorem submitAnswer_store_cases (st : Store) (tok : String)
    (a : Option WebRTCAnswer) (now : Nat) :
    (submitAnswer st tok a now).1 = st ∨
    ∃ sess a1, lookup st tok = some sess ∧ a = some a1 ∧
      sess.offer.isSome = true ∧
      (submitAnswer st tok a now).1 =
        setEntry st sess.token { sess with answer := some a1 } := by
  by_cases hv : answerValid a = true
  · cases hl : lookup st tok with
    | none => left; simp [submitAnswer, getSession, hl, hv]
    | some sess =>
      by_cases hexp : sess.isExpired now = true
      · left; simp [submitAnswer, getSession, hl, hv, hexp]
      · by_cases hcan : sess.canAcceptAnswer now = true
        · have hoffer : sess.offer.isSome = true := by
            simp [Session.canAcceptAnswer] at hcan
            exact hcan.1.1
          cases a with
          | none => simp [answerValid] at hv
          | some a1 =>
            cases hul : lookup st sess.token with
            | none =>
              left
              simp [submitAnswer, getSession, hl, hv, hexp, hcan,
                updateSession, hul]
            | some w =>
              right
              exact ⟨sess, a1, rfl, rfl, hoffer, by
                simp [submitAnswer, getSession, hl, hv, hexp, hcan,
                  updateSession, hul]⟩
        · left
          by_cases hans : sess.answer.isSome = true <;>
            simp [submitAnswer, getSession, hl, hv, hexp, hcan, hans]
  · left; simp [submitAnswer, hv]

theorem answerAfterOffer_setEntry (st : Store) (k : String) (s : Session)
    (h : AnswerAfterOffer st)
    (hs : s.answer.isSome = true → s.offer.isSome = true) :
    AnswerAfterOffer (setEntry st k s) := by
  intro p hp hans
  rcases mem_setEntry _ _ _ _ hp with h1 | h1
  · rw [h1] at hans ⊢
    exact hs hans
  · exact h p h1 hans

theorem answerAfterOffer_reachable (st : Store) (hr : Reachable st) :
    AnswerAfterOffer st := by
  induction hr with
  | init => intro p hp _; simp at hp
  | step st st1 hrr hstep ih =>
    cases hstep with
    | create tok now ttl =>
      exact answerAfterOffer_setEntry st tok _ ih (by intro h; simp at h)
    | offer tok o now =>
      rcases submitOffer_store_cases st tok o now with hc | ⟨sess, o1, hl, ho, hc⟩
      · rw [hc]; exact ih
      · rw [hc]
        exact answerAfterOffer_setEntry st sess.token _ ih (by intro h; simp)
    | answer tok a now =>
      rcases submitAnswer_store_cases st tok a now with hc |
          ⟨sess, a1, hl, ha, hoffer, hc⟩
      · rw [hc]; exact ih
      · rw [hc]
        exact answerAfterOffer_setEntry st sess.token _ ih
          (by intro h; simpa using hoffer)
    | sweep now =>
      intro p hp hans
      simp only [cleanupExpiredSessions] at hp
      rw [foldl_eraseEntry] at hp
      exact ih p (List.mem_of_mem_filter hp) hans
    | remove tok =>
      intro p hp hans
      simp only [deleteSession] at hp
      rw [eraseEntry_eq_filter] at hp
      exact ih p (List.mem_of_mem_filter hp) hans

/-- C5: in every store state reachable through the system's operations, a
session with a non-null answer also has a non-null offer; and on any
reachable store, `SubmitAnswer` with a valid payload on an unexpired
session that has neither offer nor answer fails with `SessionNotReady`,
leaving the store unchanged. -/
theorem c5_answer_only_after_offer (st : Store) (hr : Reachable st) :
    AnswerAfterOffer st ∧
    ∀ tok s (a : WebRTCAnswer) now, lookup st tok = some s →
      s.offer = none → s.answer = none →
      s.isExpired now = false → a.isValid = true →
      submitAnswer st tok (some a) now =
        (st, some UCError.sessionNotReady) := by
  refine ⟨answerAfterOffer_reachable st hr, ?_⟩
  intro tok s a now hl hoffer hanswer hexp ha
  have hcan : s.canAcceptAnswer now = false := by
    simp [Session.canAcceptAnswer, hoffer]
  simp [submitAnswer, answerValid, ha, getSession, hl, hexp, hcan, hanswer]

/-- Witness for C5: the store reached by creating one session in the empty
store; its only session is pending with no offer and no answer. -/
theorem c5_answer_only_after_offer_witness :
    AnswerAfterOffer (createSession [] "w5" 0 100).1 ∧
    ∀ tok s (a : WebRTCAnswer) now,
      lookup (createSession [] "w5" 0 100).1 tok = some s →
      s.offer = none → s.answer = none →
      s.isExpired now = false → a.isValid = true →
      submitAnswer (createSession [] "w5" 0 100).1 tok (some a) now =
        ((createSession [] "w5" 0 100).1, some UCError.sessionNotReady) :=
  c5_answer_only_after_offer _
    (Reachable.step _ _ Reachable.init (Step.create [] "w5" 0 100))

end ShareScreen
